import Mathlib

/-!
Shallow embedding of `src/app.py` (GoldPrime Flask backend, v5.1).

Modelling conventions:
* Python integers are `Int`; `time.time()` values (floats in Python) are
  modelled as `Int` seconds, which preserves all order comparisons used by
  the code.
* The on-disk JSON cache file is modelled by `StoreState`: the file may be
  absent, may fail to parse (`corrupt`), or may parse to a JSON object in
  which the `price` and `timestamp` fields are each present or missing
  (`Option Int`).
* Python exceptions that escape a function are modelled with `Except PyErr`.
* Logging side effects are modelled only where a claim mentions them
  (`MarketScraper._validate_price` returns its warning lines).
-/

/-- CACHE_EXPIRY_SECONDS = 3600 (src/app.py line 36). -/
def CACHE_EXPIRY_SECONDS : Int := 3600

/-- FAILSAFE_ANCHOR_PRICE = 1 (src/app.py line 42). -/
def FAILSAFE_ANCHOR_PRICE : Int := 1

/-- MIN_VALID_PRICE = 140000 (src/app.py line 47). -/
def MIN_VALID_PRICE : Int := 140000

/-- MAX_VALID_PRICE = 180000 (src/app.py line 48). -/
def MAX_VALID_PRICE : Int := 180000

/-- State of the persisted cache file `gold_cache.json`.

* `absent`  : `os.path.exists(CACHE_FILE)` is false.
* `corrupt` : the file exists but `json.load` raises (unparseable content).
* `record price timestamp` : the file parses to a JSON object; each field is
  `none` when the key is missing from the object. -/
inductive StoreState where
  | absent
  | corrupt
  | record (price : Option Int) (timestamp : Option Int)
deriving DecidableEq

/-- Python exceptions relevant to the modelled code paths. -/
inductive PyErr where
  | jsonDecodeError
  | attributeError
deriving DecidableEq

namespace CacheManager

/-- Embedding of `CacheManager.load(ignore_expiry)` (src/app.py lines 116-138),
as a function of the store state `s` and the current time `now`
(`time.time()`).

The Python code returns `None` when the file is missing; catches any
read/parse exception and returns `None`; otherwise computes
`age = time.time() - data.get('timestamp', 0)` and returns
`data.get('price')` when `age < CACHE_EXPIRY_SECONDS or ignore_expiry`,
else `None`. -/
def load (ignore_expiry : Bool) (s : StoreState) (now : Int) : Option Int :=
  match s with
  | StoreState.absent => none
  | StoreState.corrupt => none
  | StoreState.record price timestamp =>
      let age := now - timestamp.getD 0
      if age < CACHE_EXPIRY_SECONDS ∨ ignore_expiry = true then price
      else none

end CacheManager

namespace GoldService

/-- Embedding of `GoldService.get_master_price()` (src/app.py lines 208-228),
as a function of the store state and the current time; the result is
`Except PyErr Int` because two code paths raise:

1. Lines 216-218 re-read the cache file with a bare `json.load(f)` (no
   try/except), so a corrupt file raises `json.JSONDecodeError` to the
   caller (the earlier `CacheManager.load(ignore_expiry=True)` call on line
   211 catches its own exception and returns `None`).
2. Line 225 evaluates `MarketScraper.fetch_goodreturns_and_save`; the class
   `MarketScraper` defines only `_get_headers`, `fetch_goodreturns` and
   `_validate_price`, so this attribute lookup raises `AttributeError`
   whenever the stale branch (`age > CACHE_EXPIRY_SECONDS`) is taken.

On the non-raising path the code returns
`cached_price if cached_price else FAILSAFE_ANCHOR_PRICE`, i.e. the anchor
when the cached price is `None` or Python-falsy (`0`). -/
def get_master_price (s : StoreState) (now : Int) : Except PyErr Int :=
  let cached_price := CacheManager.load true s now
  match s with
  | StoreState.corrupt => Except.error PyErr.jsonDecodeError
  | _ =>
      let ts : Int :=
        match s with
        | StoreState.record _ timestamp => timestamp.getD 0
        | _ => 0
      let age := now - ts
      if age > CACHE_EXPIRY_SECONDS then Except.error PyErr.attributeError
      else
        Except.ok
          (match cached_price with
           | some p => if p = 0 then FAILSAFE_ANCHOR_PRICE else p
           | none => FAILSAFE_ANCHOR_PRICE)

end GoldService

namespace MarketScraper

/-- Embedding of `MarketScraper._validate_price(price)` (src/app.py lines
195-201).  Returns the boolean result together with the list of warning
lines logged: the accept branch logs nothing, the reject branch logs
`f"Rejected suspicious price: {price}"`. -/
def validate_price (price : Int) : Bool × List String :=
  if MIN_VALID_PRICE < price ∧ price < MAX_VALID_PRICE then (true, [])
  else (false, ["Rejected suspicious price: " ++ toString price])

end MarketScraper

/-- Boolean test that `needle` is a prefix of `hay` (character lists). -/
def charPrefix : List Char → List Char → Bool
  | _, [] => true
  | [], _ :: _ => false
  | c :: cs, d :: ds => c == d && charPrefix cs ds

/-- Boolean test that `needle` occurs as a contiguous sublist of `hay`;
`containsSub hay needle` embeds Python's `needle in hay` on strings. -/
def charSub (needle : List Char) : List Char → Bool
  | [] => needle.isEmpty
  | c :: cs => charPrefix (c :: cs) needle || charSub needle cs

/-- Embedding of Python's substring operator `needle in hay`. -/
def containsSub (hay needle : String) : Bool :=
  charSub needle.data hay.data

/-- Embedding of Python's `s.strip()` with no argument: removes leading and
trailing whitespace.  (Python also strips some rarer Unicode space
characters; none occur in the modelled inputs.) -/
def pyStrip (s : String) : String :=
  String.mk
    (((s.data.dropWhile Char.isWhitespace).reverse.dropWhile
        Char.isWhitespace).reverse)

/-- Embedding of Python's `s.lower()`; the modelled texts are ASCII, where
`Char.toLower` agrees with Python. -/
def pyLower (s : String) : String :=
  String.mk (s.data.map Char.toLower)

/-- Embedding of Python's `s.replace(old, '')` for a one-character `old` —
the only form the scraper uses: every occurrence of the character is
removed. -/
def removeChar (old : Char) (s : String) : String :=
  String.mk (s.data.filter (fun c => c ≠ old))

/-- Value of a list of decimal digit characters. -/
def digitsVal (cs : List Char) : Int :=
  cs.foldl (fun acc c => acc * 10 + ((c.toNat - 48 : Nat) : Int)) 0

/-- Embedding of Python's `int(s)` on strings: optional surrounding
whitespace, an optional sign, then a non-empty run of decimal digits;
any other shape raises `ValueError`, modelled as `none`.  (Python 3 also
accepts underscore digit separators; none of the modelled inputs contain
underscores, and they are not modelled.) -/
def pyInt (s : String) : Option Int :=
  let t := pyStrip s
  match t.data with
  | '-' :: rest =>
      if rest ≠ [] ∧ rest.all Char.isDigit then some (-(digitsVal rest)) else none
  | '+' :: rest =>
      if rest ≠ [] ∧ rest.all Char.isDigit then some (digitsVal rest) else none
  | cs =>
      if cs ≠ [] ∧ cs.all Char.isDigit then some (digitsVal cs) else none

/-- One `<table>` element of a fetched page, as the scraper reads it:
`text` is `table.text` (the flattened text content) and `rows` lists, for
each `<tr>`, the text of its `<td>` cells in order. -/
structure HtmlTable where
  text : String
  rows : List (List String)
deriving DecidableEq

/-- Outcome of `requests.get` on one source URL, as the scraper observes
it: `failure` covers a raised exception or a non-200 status (both cause
`continue` to the next URL); `page tables` is a 200 response whose parsed
document contains the given tables (in `soup.find_all("table")` order). -/
inductive FetchResult where
  | failure
  | page (tables : List HtmlTable)
deriving DecidableEq

namespace MarketScraper

/-- Embedding of the cell normalisation on src/app.py lines 184-185:
`raw_str = cols[1].text.strip()` followed by
`clean_str = raw_str.replace('₹', '').replace(',', '').replace('.', '')`. -/
def cleanPrice (raw : String) : String :=
  removeChar '.' (removeChar ',' (removeChar '₹' (pyStrip raw)))

/-- Embedding of the row scan inside one qualifying table (src/app.py lines
180-189).  For each `<tr>`, the row is examined when it has more than one
cell and `"10" in cols[0].text`; its second cell is normalised and parsed
by `int(...)`.  A parse failure raises `ValueError`, which is caught by the
per-URL `except` (modelled as `Except.error ()`, aborting the whole URL);
a parsed price is returned when `_validate_price` accepts it, otherwise the
loop continues with the next row. -/
def scanRows : List (List String) → Except Unit (Option Int)
  | [] => Except.ok none
  | cols :: rest =>
      if cols.length > 1 ∧ containsSub (cols.getD 0 "") "10" = true then
        match pyInt (cleanPrice (cols.getD 1 "")) with
        | none => Except.error ()
        | some price =>
            if (validate_price price).1 then Except.ok (some price)
            else scanRows rest
      else scanRows rest

/-- Embedding of the table loop (src/app.py lines 176-189): a table is
scanned when its lower-cased flattened text contains both `"10 gram"` and
`"24"`; the first validated price found in any qualifying table is
returned, a `ValueError` aborts the URL, and otherwise the loop falls
through to the next table. -/
def scanTables : List HtmlTable → Except Unit (Option Int)
  | [] => Except.ok none
  | t :: rest =>
      if containsSub (pyLower t.text) "10 gram" = true ∧
          containsSub (pyLower t.text) "24" = true then
        match scanRows t.rows with
        | Except.error e => Except.error e
        | Except.ok (some price) => Except.ok (some price)
        | Except.ok none => scanTables rest
      else scanTables rest

/-- Embedding of `MarketScraper.fetch_goodreturns()` (src/app.py lines
157-194), as a function of the observed per-URL fetch outcomes, in source
order.  A fetch failure (exception or non-200) continues with the next URL;
on a fetched page, the first validated price is returned immediately; any
exception inside the parsing loops (the `int(...)` `ValueError`) is caught
by the per-URL handler and continues with the next URL; `None` is returned
only when every source is exhausted.  The function performs no cache write:
`CacheManager.save` is never called anywhere inside it. -/
def fetch_goodreturns : List FetchResult → Option Int
  | [] => none
  | FetchResult.failure :: rest => fetch_goodreturns rest
  | FetchResult.page tables :: rest =>
      match scanTables tables with
      | Except.ok (some price) => some price
      | Except.ok none => fetch_goodreturns rest
      | Except.error _ => fetch_goodreturns rest

/-- A source observation from which the scraper obtains no validated price:
either the fetch failed, or the page scan ended without a validated price
(no qualifying table/row, a `ValueError`, or only rejected values). -/
def sourceMisses : FetchResult → Bool
  | FetchResult.failure => true
  | FetchResult.page tables =>
      match scanTables tables with
      | Except.ok (some _) => false
      | _ => true

end MarketScraper

/-- STATE_OFFSETS (src/app.py lines 69-93) in source (dict insertion) order. -/
def STATE_OFFSETS : List (String × Int) :=
  [("Delhi", 21), ("Haryana", 14), ("Punjab", 16), ("Himachal Pradesh", 19),
   ("Jammu and Kashmir", 18), ("Ladakh", 22), ("Uttarakhand", 12),
   ("Uttar Pradesh", 17), ("Chandigarh", 15), ("Rajasthan", 24),
   ("Maharashtra", 23), ("Gujarat", 16), ("Goa", 15),
   ("Dadra and Nagar Haveli", 19), ("Daman and Diu", 18),
   ("Karnataka", 10), ("Tamil Nadu", 8), ("Kerala", -25), ("Telangana", -8),
   ("Andhra Pradesh", -18), ("Puducherry", -20), ("Lakshadweep", 14),
   ("Andaman and Nicobar Islands", 130),
   ("West Bengal", 60), ("Odisha", 40), ("Bihar", 50), ("Jharkhand", 50),
   ("Madhya Pradesh", 50), ("Chhattisgarh", 40),
   ("Assam", 80), ("Sikkim", 100), ("Arunachal Pradesh", 200),
   ("Manipur", 200), ("Meghalaya", 180), ("Mizoram", 200), ("Nagaland", 200),
   ("Tripura", 200)]

/-- One element of the list built by `GoldService.calculate_all_states`
(src/app.py lines 290-297): regional 24k/22k prices and their 1-gram
variants (`//` is Python floor division, `Int.fdiv`). -/
structure StateEntry where
  name : String
  p24 : Int
  p22 : Int
  p24_1g : Int
  p22_1g : Int
deriving DecidableEq

namespace GoldService

/-- Loop body of `calculate_all_states` (src/app.py lines 285-297) for one
`(state_name, offset)` pair.  The float expressions
`int(base_price_24k * 0.9166)` and `int(offset * 0.9)` are modelled as
exact decimal arithmetic truncated toward zero (`Int.tdiv`), reading the
float literals as the decimals they denote. -/
def stateEntryOf (base_price_24k : Int) (so : String × Int) : StateEntry :=
  let base_price_22k := Int.tdiv (base_price_24k * 9166) 10000
  let p24 := base_price_24k + so.2
  let p22 := base_price_22k + Int.tdiv (so.2 * 9) 10
  { name := so.1, p24 := p24, p22 := p22,
    p24_1g := Int.fdiv p24 10, p22_1g := Int.fdiv p22 10 }

/-- Embedding of `GoldService.calculate_all_states(base_price_24k)`
(src/app.py lines 276-301): map the loop body over `STATE_OFFSETS`, then
`results.sort(key=lambda x: x['name'])` — Python's stable ascending sort by
name, modelled by `List.mergeSort` on the name order. -/
def calculate_all_states (base_price_24k : Int) : List StateEntry :=
  (STATE_OFFSETS.map (stateEntryOf base_price_24k)).mergeSort
    (fun a b => decide (a.name ≤ b.name))

/-- variance_pattern (src/app.py line 242). -/
def variance_pattern : List Int := [-450, -120, 220, -80, 300, 90, 0]

/-- Weekly series of `GoldService.generate_charts` (src/app.py lines
244-249): the loop `for i in range(6, -1, -1)` appends
`base_price + variance_pattern[6 - i]`; with `k = 6 - i` this is a map over
`k = 0..6`.  The date labels are not modelled (real time). -/
def week_data (base_price : Int) : List Int :=
  (List.range 7).map (fun k => base_price + variance_pattern.getD k 0)

/-- Monthly random-walk loop of `GoldService.generate_charts` (src/app.py
lines 257-269).  `rng k` is the k-th value drawn by
`random.randint(-300, 400)`; `fuel` counts the remaining iterations, so the
Python loop index is `i = fuel - 1` and the final iteration (`i == 0`,
i.e. `fuel = 1`) overwrites the walk with `base_price` before appending. -/
def month_loop (base_price : Int) (rng : Nat → Int) :
    Nat → Nat → Int → List Int
  | _, 0, _ => []
  | k, fuel + 1, current =>
      let stepped := current + rng k
      let value := if fuel = 0 then base_price else stepped
      value :: month_loop base_price rng (k + 1) fuel value

/-- Monthly series of `GoldService.generate_charts` (src/app.py lines
251-269): 30 iterations starting from `current_sim_price =
base_price - 1500`. -/
def month_data (base_price : Int) (rng : Nat → Int) : List Int :=
  month_loop base_price rng 0 30 (base_price - 1500)

/-- Embedding of `GoldService.generate_charts(base_price)` (src/app.py
lines 230-274), keeping the two data series of the returned dict
(`weekly.data`, `monthly.data`); the label lists are date strings and are
not modelled. -/
def generate_charts (base_price : Int) (rng : Nat → Int) :
    List Int × List Int :=
  (week_data base_price, month_data base_price rng)

end GoldService

/-- Concrete fetched page for the end-to-end scenarios: one qualifying
table whose single qualifying row carries `₹1,70,500`. -/
def scenarioGoodTable : HtmlTable :=
  { text := "Gold 24K per 10 gram", rows := [["10 grams", "₹1,70,500"]] }

/-- Concrete fetched page whose qualifying table first offers a paper-gold
value `78000` and then a retail value `1,65,000`. -/
def scenarioMixedTable : HtmlTable :=
  { text := "10 gram 24 karat gold rate",
    rows := [["10 gram", "78000"], ["10 gram", "1,65,000"]] }

/-- Concrete fetched page whose qualifying table offers only the rejected
paper-gold value `78000`. -/
def scenarioRejectTable : HtmlTable :=
  { text := "10 gram 24", rows := [["10 g", "78000"]] }

/-- Helper: prepending one element to a list with a known last element
keeps that last element. -/
theorem getLast_cons_of_some {α : Type} (a b : α) (l : List α)
    (h : l.getLast? = some b) : (a :: l).getLast? = some b := by
  cases l with
  | nil => simp at h
  | cons x xs => rw [List.getLast?_cons_cons]; exact h

/-- Helper: `month_loop` produces exactly `fuel` values. -/
theorem month_loop_length (b : Int) (rng : Nat → Int) (fuel : Nat) :
    ∀ (k : Nat) (cur : Int),
      (GoldService.month_loop b rng k fuel cur).length = fuel := by
  induction fuel with
  | zero => intro k cur; rfl
  | succ n ih => intro k cur; simp [GoldService.month_loop, ih]

/-- Helper: a non-empty `month_loop` run always ends with the base price,
because the final iteration (`fuel = 1`) overwrites the walk. -/
theorem month_loop_getLast (b : Int) (rng : Nat → Int) (fuel : Nat) :
    ∀ (k : Nat) (cur : Int),
      (GoldService.month_loop b rng k (fuel + 1) cur).getLast? = some b := by
  induction fuel with
  | zero => intro k cur; simp [GoldService.month_loop]
  | succ n ih =>
      intro k cur
      have h1 : GoldService.month_loop b rng k (n + 1 + 1) cur
          = (cur + rng k) ::
              GoldService.month_loop b rng (k + 1) (n + 1) (cur + rng k) := by
        simp [GoldService.month_loop]
      rw [h1]
      exact getLast_cons_of_some _ _ _ (ih (k + 1) (cur + rng k))

/-- C5: a well-formed record of price `p` captured at time `t`, read at
time `now`, yields `some p` from `load false` when `now - t` is strictly
below the 3600-second window, yields `none` from `load false` when the age
is at least the window, and yields `some p` from `load true` in every
case. -/
theorem C5_load_freshness (p t now : Int) :
    (now - t < CACHE_EXPIRY_SECONDS →
      CacheManager.load false (StoreState.record (some p) (some t)) now = some p)
    ∧ (CACHE_EXPIRY_SECONDS ≤ now - t →
      CacheManager.load false (StoreState.record (some p) (some t)) now = none)
    ∧ CacheManager.load true (StoreState.record (some p) (some t)) now = some p := by
  refine ⟨fun h => ?_, fun h => ?_, ?_⟩
  · simp [CacheManager.load, h]
  · simp [CacheManager.load]
    omega
  · simp [CacheManager.load]

/-- Witness for C5 at `p = 165000`, `t = 100`, read at `now = 200`
(age 100, fresh) and `now = 5000` (age 4900, stale). -/
theorem C5_load_freshness_witness :
    CacheManager.load false (StoreState.record (some 165000) (some 100)) 200
        = some 165000
    ∧ CacheManager.load false (StoreState.record (some 165000) (some 100)) 5000
        = none
    ∧ CacheManager.load true (StoreState.record (some 165000) (some 100)) 5000
        = some 165000 :=
  ⟨(C5_load_freshness 165000 100 200).1 (by decide),
   (C5_load_freshness 165000 100 5000).2.1 (by decide),
   (C5_load_freshness 165000 100 5000).2.2⟩

/-- C6 counterexample: a record whose `timestamp` field is missing is not
fully well-formed, yet `load(ignore_expiry=True)` surfaces its price
(`data.get('timestamp', 0)` defaults the missing field to `0` and the
`ignore_expiry` disjunct then returns `data.get('price')`), contradicting
the claim that every load treats such a record as absent. -/
theorem C6_counterexample :
    CacheManager.load true (StoreState.record (some 150000) none) 0
        = some 150000
    ∧ CacheManager.load true (StoreState.record (some 150000) none) 0
        ≠ none := by
  constructor
  · rfl
  · decide

/-- C6 amended: a corrupt or absent file, or a record missing the `price`
field, is treated as absent by every load; a record missing only the
`timestamp` field is given timestamp `0`, so `load true` still surfaces its
price and `load false` treats it as absent once `now` is at least the
freshness window. -/
theorem C6_partial_records (p now : Int) (ts : Option Int) :
    (∀ b : Bool, CacheManager.load b StoreState.corrupt now = none)
    ∧ (∀ b : Bool, CacheManager.load b StoreState.absent now = none)
    ∧ (∀ b : Bool, CacheManager.load b (StoreState.record none ts) now = none)
    ∧ CacheManager.load true (StoreState.record (some p) none) now = some p
    ∧ (CACHE_EXPIRY_SECONDS ≤ now →
        CacheManager.load false (StoreState.record (some p) none) now = none) := by
  refine ⟨fun b => rfl, fun b => rfl, fun b => ?_, ?_, fun h => ?_⟩
  · simp [CacheManager.load]
  · simp [CacheManager.load]
  · simp [CacheManager.load]
    omega

/-- Witness for C6 amended at `p = 150000`, `ts = some 42`, `now = 5000`. -/
theorem C6_partial_records_witness :
    CacheManager.load false StoreState.corrupt 5000 = none
    ∧ CacheManager.load true (StoreState.record none (some 42)) 5000 = none
    ∧ CacheManager.load true (StoreState.record (some 150000) none) 5000
        = some 150000
    ∧ CacheManager.load false (StoreState.record (some 150000) none) 5000
        = none :=
  ⟨(C6_partial_records 150000 5000 (some 42)).1 false,
   (C6_partial_records 150000 5000 (some 42)).2.2.1 true,
   (C6_partial_records 150000 5000 (some 42)).2.2.2.1,
   (C6_partial_records 150000 5000 (some 42)).2.2.2.2 (by decide)⟩

/-- C7: `_validate_price` accepts exactly the integers strictly between
`MIN_VALID_PRICE` and `MAX_VALID_PRICE`; in particular it rejects both
bounds and accepts their immediate neighbours inside the band. -/
theorem C7_validate_iff :
    (∀ p : Int, (MarketScraper.validate_price p).1 = true ↔
        MIN_VALID_PRICE < p ∧ p < MAX_VALID_PRICE)
    ∧ (MarketScraper.validate_price MIN_VALID_PRICE).1 = false
    ∧ (MarketScraper.validate_price MAX_VALID_PRICE).1 = false
    ∧ (MarketScraper.validate_price (MIN_VALID_PRICE + 1)).1 = true
    ∧ (MarketScraper.validate_price (MAX_VALID_PRICE - 1)).1 = true := by
  refine ⟨fun p => ?_, by decide, by decide, by decide, by decide⟩
  by_cases h : MIN_VALID_PRICE < p ∧ p < MAX_VALID_PRICE <;>
    simp [MarketScraper.validate_price, h]

/-- C8: the cell normalisation strips the rupee symbol, commas and decimal
points and the remaining digits parse as an integer: `"1,68,450"` becomes
`168450` and `"₹1,68,450.00"` becomes `16845000`. -/
theorem C8_currency_normalization :
    MarketScraper.cleanPrice ("1,68,450") = ("168450")
    ∧ pyInt (MarketScraper.cleanPrice ("1,68,450")) = some 168450
    ∧ MarketScraper.cleanPrice ("₹1,68,450.00") = ("16845000")
    ∧ pyInt (MarketScraper.cleanPrice ("₹1,68,450.00")) = some 16845000 :=
  ⟨rfl, rfl, rfl, rfl⟩

/-- C1 (code bug): `get_master_price` does not return an integer on every
reachable store state.  With a corrupt cache file the bare `json.load` on
src/app.py lines 217-218 raises `json.JSONDecodeError`, and whenever the
stale branch is taken (here: no cache file at `now = 7200`, so
`age = 7200 > 3600`) the attribute lookup
`MarketScraper.fetch_goodreturns_and_save` on line 225 raises
`AttributeError` because no such method is defined on the class. -/
theorem C1_resolve_raises :
    GoldService.get_master_price StoreState.corrupt 0
        = Except.error PyErr.jsonDecodeError
    ∧ GoldService.get_master_price StoreState.absent 7200
        = Except.error PyErr.attributeError
    ∧ GoldService.get_master_price
        (StoreState.record (some 168000) (some 100)) 200
        = Except.ok 168000 :=
  ⟨rfl, rfl, rfl⟩

/-- C2 (code bug): the scraping pipeline would obtain the validated price
`170500` from the first responsive source, but no code path persists it:
`fetch_goodreturns` never calls `CacheManager.save`, and the background
dispatch on src/app.py line 225 names the nonexistent method
`fetch_goodreturns_and_save`, so a resolution call on a stale record raises
`AttributeError` instead of scheduling a refresh — a subsequent resolution
can never observe the newly scraped price. -/
theorem C2_refresh_never_persists :
    MarketScraper.fetch_goodreturns [FetchResult.page [scenarioGoodTable]]
        = some 170500
    ∧ GoldService.get_master_price (StoreState.record (some 165000) (some 0)) 7200
        = Except.error PyErr.attributeError :=
  ⟨rfl, rfl⟩

/-- C3 counterexample: a single source whose qualifying table first yields
the rejected value `78000` nevertheless has a value of its own returned —
the scraper continues with the next row of the same table and returns
`165000` from that same source, so the claim's "proceeds to the next source
in the ordered list; no value from that source is persisted or returned" is
false at this input. -/
theorem C3_counterexample :
    (MarketScraper.validate_price 78000).1 = false
    ∧ MarketScraper.fetch_goodreturns [FetchResult.page [scenarioMixedTable]]
        = some 165000 :=
  ⟨rfl, rfl⟩

/-- C3 amended: when a qualifying row's extracted price fails validation,
the scraper logs a warning naming the rejected value and continues with the
next candidate row of the same source (then subsequent tables and sources);
the rejected value itself is never returned, and every value the row scan
returns has passed validation — but a different, valid value from the same
source may still be returned. -/
theorem C3_rejected_value_flow (cols : List String)
    (rest : List (List String)) (p : Int)
    (hq : cols.length > 1 ∧ containsSub (cols.getD 0 "") "10" = true)
    (hparse : pyInt (MarketScraper.cleanPrice (cols.getD 1 "")) = some p)
    (hrej : (MarketScraper.validate_price p).1 = false) :
    MarketScraper.scanRows (cols :: rest) = MarketScraper.scanRows rest
    ∧ (MarketScraper.validate_price p).2
        = ["Rejected suspicious price: " ++ toString p]
    ∧ ∀ (rows : List (List String)) (q : Int),
        MarketScraper.scanRows rows = Except.ok (some q) →
        (MarketScraper.validate_price q).1 = true := by
  refine ⟨?_, ?_, ?_⟩
  · unfold MarketScraper.scanRows
    rw [if_pos hq, hparse]
    simp only [hrej, Bool.false_eq_true, if_false]
    cases rest <;> rfl
  · unfold MarketScraper.validate_price at hrej ⊢
    by_cases h : MIN_VALID_PRICE < p ∧ p < MAX_VALID_PRICE
    · simp [h] at hrej
    · simp [h]
  · intro rows
    induction rows with
    | nil => intro q h; simp [MarketScraper.scanRows] at h
    | cons c rs ih =>
        intro q h
        unfold MarketScraper.scanRows at h
        split at h
        · split at h
          · exact absurd h (by simp)
          · rename_i price hp
            split at h
            · rename_i hv
              obtain rfl : price = q := by simpa using h
              exact hv
            · exact ih q h
        · exact ih q h

/-- Witness for C3 amended at the mixed-table rows: the rejected `78000`
row is skipped, its warning names the value, and the value the scan then
returns (`165000`) is validated. -/
theorem C3_rejected_value_flow_witness :
    MarketScraper.scanRows [["10 gram", "78000"], ["10 gram", "1,65,000"]]
        = MarketScraper.scanRows [["10 gram", "1,65,000"]]
    ∧ (MarketScraper.validate_price 78000).2
        = ["Rejected suspicious price: " ++ toString (78000 : Int)]
    ∧ (MarketScraper.validate_price 165000).1 = true :=
  ⟨(C3_rejected_value_flow ["10 gram", "78000"] [["10 gram", "1,65,000"]]
      78000 (by decide) (by decide) (by decide)).1,
   (C3_rejected_value_flow ["10 gram", "78000"] [["10 gram", "1,65,000"]]
      78000 (by decide) (by decide) (by decide)).2.1,
   (C3_rejected_value_flow ["10 gram", "78000"] [["10 gram", "1,65,000"]]
      78000 (by decide) (by decide) (by decide)).2.2
     [["10 gram", "1,65,000"]] 165000 rfl⟩

/-- C4: if every source before some source misses and that source's page
scan yields a validated price `p`, then `fetch_goodreturns` returns `p`
whatever the remaining sources would return (first-success short-circuit:
the result does not depend on any later source); and if every source in the
list fails, misses or is rejected, the function returns `none`. -/
theorem C4_first_success_short_circuit :
    (∀ (pre : List FetchResult) (tables : List HtmlTable) (p : Int)
        (rest : List FetchResult),
      (∀ s ∈ pre, MarketScraper.sourceMisses s = true) →
      MarketScraper.scanTables tables = Except.ok (some p) →
      MarketScraper.fetch_goodreturns (pre ++ FetchResult.page tables :: rest)
          = some p)
    ∧ (∀ srcs : List FetchResult,
        (∀ s ∈ srcs, MarketScraper.sourceMisses s = true) →
        MarketScraper.fetch_goodreturns srcs = none) := by
  constructor
  · intro pre
    induction pre with
    | nil =>
        intro tables p rest hmiss hscan
        simp [MarketScraper.fetch_goodreturns, hscan]
    | cons s pre' ih =>
        intro tables p rest hmiss hscan
        have hs := hmiss s (by simp)
        have hrest : ∀ x ∈ pre', MarketScraper.sourceMisses x = true :=
          fun x hx => hmiss x (by simp [hx])
        cases s with
        | failure =>
            simpa [MarketScraper.fetch_goodreturns]
              using ih tables p rest hrest hscan
        | page ts =>
            cases hscan2 : MarketScraper.scanTables ts with
            | error e =>
                simpa [MarketScraper.fetch_goodreturns, hscan2]
                  using ih tables p rest hrest hscan
            | ok o =>
                cases o with
                | none =>
                    simpa [MarketScraper.fetch_goodreturns, hscan2]
                      using ih tables p rest hrest hscan
                | some q =>
                    simp [MarketScraper.sourceMisses, hscan2] at hs
  · intro srcs
    induction srcs with
    | nil => intro _; rfl
    | cons s rest ih =>
        intro hmiss
        have hs := hmiss s (by simp)
        have hrest : ∀ x ∈ rest, MarketScraper.sourceMisses x = true :=
          fun x hx => hmiss x (by simp [hx])
        cases s with
        | failure =>
            simpa [MarketScraper.fetch_goodreturns] using ih hrest
        | page ts =>
            cases hscan : MarketScraper.scanTables ts with
            | error e =>
                simpa [MarketScraper.fetch_goodreturns, hscan] using ih hrest
            | ok o =>
                cases o with
                | none =>
                    simpa [MarketScraper.fetch_goodreturns, hscan] using ih hrest
                | some q =>
                    simp [MarketScraper.sourceMisses, hscan] at hs

/-- Witness for C4: with a failing first source, a second source scanning
to the validated `170500` and a third source present, the result is
`170500` independently of the third source; and a list whose every source
misses yields `none`. -/
theorem C4_first_success_short_circuit_witness :
    MarketScraper.fetch_goodreturns
      [FetchResult.failure, FetchResult.page [scenarioGoodTable],
       FetchResult.page [scenarioMixedTable]] = some 170500
    ∧ MarketScraper.fetch_goodreturns
        [FetchResult.failure, FetchResult.page [scenarioRejectTable]] = none :=
  ⟨C4_first_success_short_circuit.1 [FetchResult.failure] [scenarioGoodTable]
      170500 [FetchResult.page [scenarioMixedTable]] (by decide) rfl,
   C4_first_success_short_circuit.2
      [FetchResult.failure, FetchResult.page [scenarioRejectTable]]
      (by decide)⟩

/-- C9: for every base price and every random-walk outcome, the weekly
series has exactly 7 values ending at the base price and the monthly series
has exactly 30 values ending at the base price (final-day convergence is
forced). -/
theorem C9_chart_series (base_price : Int) (rng : Nat → Int) :
    (GoldService.generate_charts base_price rng).1.length = 7
    ∧ (GoldService.generate_charts base_price rng).1.getLast? = some base_price
    ∧ (GoldService.generate_charts base_price rng).2.length = 30
    ∧ (GoldService.generate_charts base_price rng).2.getLast?
        = some base_price := by
  have hw : (GoldService.generate_charts base_price rng).1
      = [base_price + (-450), base_price + (-120), base_price + 220,
         base_price + (-80), base_price + 300, base_price + 90,
         base_price + 0] := rfl
  refine ⟨by rw [hw]; rfl, by rw [hw]; simp, ?_, ?_⟩
  · exact month_loop_length base_price rng 30 0 (base_price - 1500)
  · exact month_loop_getLast base_price rng 29 0 (base_price - 1500)

/-- C10: for every base price, the region list is a permutation of one
loop-body entry per `STATE_OFFSETS` pair (so each entry's 24k price is
`base + offset` and its 22k price is `int(base * 0.9166) + int(offset *
0.9)` as computed by `stateEntryOf`), the region names are pairwise
distinct, and the final list is sorted in ascending alphabetical order of
region name. -/
theorem C10_region_pricing (base_price_24k : Int) :
    (GoldService.calculate_all_states base_price_24k).Perm
      (STATE_OFFSETS.map (GoldService.stateEntryOf base_price_24k))
    ∧ List.Pairwise (fun a b : StateEntry => a.name ≤ b.name)
        (GoldService.calculate_all_states base_price_24k)
    ∧ (STATE_OFFSETS.map Prod.fst).Nodup := by
  refine ⟨List.mergeSort_perm _ _, ?_, by decide⟩
  have h := @List.sorted_mergeSort StateEntry
      (fun a b : StateEntry => decide (a.name ≤ b.name))
      (fun a b c hab hbc => by
        simp only [decide_eq_true_eq] at hab hbc ⊢
        exact le_trans hab hbc)
      (fun a b => by
        simp only [Bool.or_eq_true, decide_eq_true_eq]
        exact le_total a.name b.name)
      (STATE_OFFSETS.map (GoldService.stateEntryOf base_price_24k))
  exact h.imp (fun hab => of_decide_eq_true hab)
